import Mathlib

/-!
Verification of the onboarding step sequencer, slider widget, configuration
fetch, answer-record store and scripted chat responder of the LocusOfYou
client app.  The definitions below are a shallow embedding of the TypeScript
sources:

* `src/unnamed/part_001` — the server-driven `OnboardingScreen` (state,
  fetch, navigation and input handlers);
* `src/app/(tabs)/index.tsx` — the `OnboardingStep` / `OnboardingConfig`
  interfaces and the `GET /api/onboarding_questions` configuration;
* `src/components/OnboardingSliderCard.tsx` — the drag gesture handlers;
* `src/components/TypingIndicator.tsx` — the `OnboardingProvider` context
  (initial answer record and reset);
* `src/unnamed/part_002` — the variant `OnboardingScreen` whose steps declare
  `previousStep`;
* `src/unnamed/part_000` — the `ChatScreen` (payload parsing and the canned
  response generator).

JavaScript numbers that only ever hold integers are modelled as `Int`;
pixel coordinates in the slider are modelled as `ℚ`.  Timers are modelled by
splitting each handler into its synchronous part and an explicit list of
scheduled `Effect`s; display-only styling props are not part of the model.
-/

namespace LocusOfYou

/-- Answer record accumulated by the wizard (`OnboardingData` interface,
src/unnamed/part_001 lines 45-54).  Enum fields are `string | null` in the
source and are modelled as `Option String`. -/
structure OnboardingData where
  coachingStyle : String
  conscientiousness : Option String
  regulatoryFocus : Option String
  locusOfControl : Option String
  mindset : Option String
  extraversion : Int
  agreeableness : Int
  currentFocus : String
deriving DecidableEq, Repr

/-- The computed-key update `{ ...prev, [field]: choice }` used by
`handleChoiceSelection` for string-valued fields.  An unknown field name
leaves the typed record unchanged (in JS it would add an extra property that
no reader ever consults). -/
def OnboardingData.setField (d : OnboardingData) (field : String) (v : String) :
    OnboardingData :=
  if field = "coachingStyle" then { d with coachingStyle := v }
  else if field = "conscientiousness" then { d with conscientiousness := some v }
  else if field = "regulatoryFocus" then { d with regulatoryFocus := some v }
  else if field = "locusOfControl" then { d with locusOfControl := some v }
  else if field = "mindset" then { d with mindset := some v }
  else if field = "currentFocus" then { d with currentFocus := v }
  else d

/-- The computed-key update `{ ...prev, [field]: value }` used by
`handleSliderValueChange` for the numeric fields. -/
def OnboardingData.setNumField (d : OnboardingData) (field : String) (v : Int) :
    OnboardingData :=
  if field = "extraversion" then { d with extraversion := v }
  else if field = "agreeableness" then { d with agreeableness := v }
  else d

/-! ### Step descriptors (`OnboardingStep`, src/app/(tabs)/index.tsx) -/

/-- One timed message of a `messages` step. -/
structure StepMessage where
  text : String
  delay : Option Int := none
deriving DecidableEq, Repr

/-- The question block of a `choice_question` step. -/
structure StepQuestion where
  text : String
  icon : Option String := none
deriving DecidableEq, Repr

/-- One selectable choice of a `choice_question` step. -/
structure StepChoice where
  id : String
  text : String
  icon : String
  value : String
deriving DecidableEq, Repr

/-- The slider block of a `slider` step. -/
structure StepSlider where
  questionText : String
  leftLabel : String
  rightLabel : String
  icon : String
  field : String
deriving DecidableEq, Repr

/-- The text-input block of a `text_input` step. -/
structure StepTextInput where
  placeholder : String
  field : String
  submitButtonText : String
deriving DecidableEq, Repr

/-- The banner block of a `transition` step. -/
structure StepTransition where
  message : String
  delay : Option Int := none
deriving DecidableEq, Repr

/-- The `type` tag of a step. -/
inductive StepType
  | messages
  | choice_question
  | slider
  | text_input
  | transition
deriving DecidableEq, Repr

/-- A step descriptor, mirroring the `OnboardingStep` interface
(src/app/(tabs)/index.tsx lines 1157-1195).  Optional interface members are
`Option`s defaulting to `none`. -/
structure OnboardingStep where
  id : String
  type : StepType
  title : Option String := none
  messages : Option (List StepMessage) := none
  question : Option StepQuestion := none
  choices : Option (List StepChoice) := none
  slider : Option StepSlider := none
  textInput : Option StepTextInput := none
  transition : Option StepTransition := none
  field : Option String := none
  nextStep : Option String := none
  autoProgress : Option Bool := none
  autoProgressDelay : Option Int := none
deriving DecidableEq, Repr

/-- The fetched configuration (`OnboardingConfig`, src/app/(tabs)/index.tsx
lines 1197-1209). -/
structure OnboardingConfig where
  steps : List OnboardingStep
  initialData : OnboardingData
deriving DecidableEq, Repr

/-- The static configuration served by `GET /api/onboarding_questions`
(src/app/(tabs)/index.tsx lines 1211-1439), transcribed verbatim
(apostrophes written as the escape `\x27`). -/
def onboardingQuestionsConfig : OnboardingConfig where
  steps := [
    { id := "welcome_messages"
      type := StepType.messages
      messages := some [
        { text := "Welcome.", delay := some 0 },
        { text := "I\x27m here to be a supportive partner, at your pace. No pressure.", delay := some 1200 },
        { text := "To get started, I have one quick question to understand your style.", delay := some 3000 }]
      nextStep := some "conscientiousness_question"
      autoProgress := some true
      autoProgressDelay := some 4200 },
    { id := "conscientiousness_question"
      type := StepType.choice_question
      question := some
        { text := "When you\x27re at your best, are you more of a meticulous planner who loves a detailed roadmap, or a flexible adapter who thrives on creative problem-solving?"
          icon := some "compass" }
      choices := some [
        { id := "planner", text := "Meticulous Planner", icon := "map", value := "planner" },
        { id := "adapter", text := "Flexible Adapter", icon := "wand", value := "adapter" }]
      field := some "conscientiousness"
      nextStep := some "transition_to_regulatory" },
    { id := "transition_to_regulatory"
      type := StepType.transition
      transition := some
        { message := "Got it. That\x27s helpful. A few more quick questions to get a clearer picture of your style. Just choose the one that feels closer to your truth."
          delay := some 0 }
      nextStep := some "regulatory_focus_question"
      autoProgress := some true
      autoProgressDelay := some 1000 },
    { id := "regulatory_focus_question"
      type := StepType.choice_question
      question := some
        { text := "Thinking about what drives you towards a goal, does it feel more like you\x27re striving to achieve a positive outcome, or more like you\x27re working hard to prevent a negative one?"
          icon := some "target" }
      choices := some [
        { id := "promotion", text := "Striving to achieve a positive outcome", icon := "star", value := "promotion" },
        { id := "prevention", text := "Working hard to prevent a negative one", icon := "shield", value := "prevention" }]
      field := some "regulatoryFocus"
      nextStep := some "transition_to_locus" },
    { id := "transition_to_locus"
      type := StepType.transition
      transition := some { message := "Okay, next...", delay := some 0 }
      nextStep := some "locus_of_control_question"
      autoProgress := some true
      autoProgressDelay := some 800 },
    { id := "locus_of_control_question"
      type := StepType.choice_question
      question := some
        { text := "When you achieve a major success, do you tend to credit it more to your disciplined preparation and hard work, or to being in the right place at the right time?"
          icon := some "brain" }
      choices := some [
        { id := "internal", text := "Disciplined preparation and hard work", icon := "brain", value := "internal" },
        { id := "external", text := "Being in the right place at the right time", icon := "gift", value := "external" }]
      field := some "locusOfControl"
      nextStep := some "transition_to_mindset" },
    { id := "transition_to_mindset"
      type := StepType.transition
      transition := some { message := "Last one like this...", delay := some 0 }
      nextStep := some "mindset_question"
      autoProgress := some true
      autoProgressDelay := some 800 },
    { id := "mindset_question"
      type := StepType.choice_question
      question := some
        { text := "Do you feel that a person\x27s ability to stay focused and organized is something they\x27re mostly born with, or is it a skill that can be developed over time with the right strategies?"
          icon := some "lightbulb" }
      choices := some [
        { id := "fixed", text := "Mostly born with it", icon := "lock", value := "fixed" },
        { id := "growth", text := "A skill that can be developed", icon := "leaf", value := "growth" }]
      field := some "mindset"
      nextStep := some "transition_to_sliders" },
    { id := "transition_to_sliders"
      type := StepType.transition
      transition := some
        { message := "Thanks for that. Now for a couple of questions on a different note. For these, just slide to the point on the scale that feels most like you."
          delay := some 0 }
      nextStep := some "extraversion_slider"
      autoProgress := some true
      autoProgressDelay := some 1200 },
    { id := "extraversion_slider"
      type := StepType.slider
      slider := some
        { questionText := "When it comes to tackling a big project, where do you draw your energy from?"
          leftLabel := "Working quietly on my own"
          rightLabel := "Bouncing ideas off of a group"
          icon := "lightbulb"
          field := "extraversion" }
      field := some "extraversion"
      nextStep := some "transition_to_agreeableness" },
    { id := "transition_to_agreeableness"
      type := StepType.transition
      transition := some { message := "Got it. One more like that...", delay := some 0 }
      nextStep := some "agreeableness_slider"
      autoProgress := some true
      autoProgressDelay := some 800 },
    { id := "agreeableness_slider"
      type := StepType.slider
      slider := some
        { questionText := "When someone gives you critical feedback on your work, what\x27s your initial instinct?"
          leftLabel := "Challenge the feedback and defend my position"
          rightLabel := "Find common ground and seek to understand their view"
          icon := "target"
          field := "agreeableness" }
      field := some "agreeableness"
      nextStep := some "final_input" },
    { id := "final_input"
      type := StepType.messages
      messages := some [
        { text := "Perfect. That gives me a complete picture of your unique style.", delay := some 0 },
        { text := "Now, let\x27s bring the focus to you.", delay := some 1200 },
        { text := "What\x27s on your mind right now that feels most important?", delay := some 2400 }]
      nextStep := some "text_input_step"
      autoProgress := some true
      autoProgressDelay := some 3600 },
    { id := "text_input_step"
      type := StepType.text_input
      textInput := some
        { placeholder := "Share what\x27s most important to you right now..."
          field := "currentFocus"
          submitButtonText := "Begin Coaching" }
      field := some "currentFocus" }]
  initialData :=
    { coachingStyle := ""
      conscientiousness := none
      regulatoryFocus := none
      locusOfControl := none
      mindset := none
      extraversion := 50
      agreeableness := 50
      currentFocus := "" }

/-! ### JSON values

The completed answer record travels between screens as
`JSON.stringify(onboardingData)` and is read back with `JSON.parse` (no
schema validation).  The payload is modelled at the level of the JSON value
tree; `stringify`/`parse` between a value tree and its text is the identity
round trip of the JSON grammar. -/

/-- A JSON value (the fragment the payload uses: null, strings, integer
numbers and objects). -/
inductive Json where
  | null
  | str (s : String)
  | num (n : Int)
  | obj (fields : List (String × Json))

/-- Field lookup on a JSON object; `none` on any other value. -/
def Json.getField : Json → String → Option Json
  | Json.obj fields, key => fields.lookup key
  | _, _ => none

/-- Read a JSON value as a string. -/
def Json.asString : Json → Option String
  | Json.str s => some s
  | _ => none

/-- Read a JSON value as a nullable string (a `string | null` field). -/
def Json.asNullableString : Json → Option (Option String)
  | Json.null => some none
  | Json.str s => some (some s)
  | _ => none

/-- Read a JSON value as a number. -/
def Json.asNumber : Json → Option Int
  | Json.num n => some n
  | _ => none

/-- Serialization of a `string | null` field. -/
def jsonOfNullableString : Option String → Json
  | none => Json.null
  | some s => Json.str s

/-- `JSON.stringify(onboardingData)`: the value tree of the serialized answer
record, fields in declaration order. -/
def OnboardingData.toJson (d : OnboardingData) : Json :=
  Json.obj [
    ("coachingStyle", Json.str d.coachingStyle),
    ("conscientiousness", jsonOfNullableString d.conscientiousness),
    ("regulatoryFocus", jsonOfNullableString d.regulatoryFocus),
    ("locusOfControl", jsonOfNullableString d.locusOfControl),
    ("mindset", jsonOfNullableString d.mindset),
    ("extraversion", Json.num d.extraversion),
    ("agreeableness", Json.num d.agreeableness),
    ("currentFocus", Json.str d.currentFocus)]

/-- The receiving side's `JSON.parse(params.onboardingData)` viewed as an
answer record: each field is read back exactly as serialized, with no schema
validation beyond the shape needed to type the record. -/
def OnboardingData.fromJson (j : Json) : Option OnboardingData := do
  let coachingStyle ← (j.getField "coachingStyle").bind Json.asString
  let conscientiousness ← (j.getField "conscientiousness").bind Json.asNullableString
  let regulatoryFocus ← (j.getField "regulatoryFocus").bind Json.asNullableString
  let locusOfControl ← (j.getField "locusOfControl").bind Json.asNullableString
  let mindset ← (j.getField "mindset").bind Json.asNullableString
  let extraversion ← (j.getField "extraversion").bind Json.asNumber
  let agreeableness ← (j.getField "agreeableness").bind Json.asNumber
  let currentFocus ← (j.getField "currentFocus").bind Json.asString
  some { coachingStyle, conscientiousness, regulatoryFocus, locusOfControl,
         mindset, extraversion, agreeableness, currentFocus }

/-! ### The server-driven onboarding screen (src/unnamed/part_001) -/

/-- The `InteractionState` union type (line 56). -/
inductive InteractionState
  | none
  | touching
  | selected
  | transitioning
deriving DecidableEq, Repr

/-- Externally visible actions a handler schedules or performs: a
`setTimeout(() => navigateToStep(target), delay)`, a `router.push` to the
chat screen carrying the serialized answer record, or a `router.back()`. -/
inductive Effect where
  | scheduleNavigate (target : String)
  | pushChat (coachingStyle : String) (onboardingData : Json)
  | hostBack

/-- The component state of `OnboardingScreen` (lines 77-95), excluding the
purely visual shared animation values. -/
structure ScreenState where
  loading : Bool
  error : Option String
  onboardingConfig : Option OnboardingConfig
  currentStepId : String
  stepHistory : List String
  interactionState : InteractionState
  showContent : Bool
  data : OnboardingData

/-- JavaScript truthiness of a `string | null` value. -/
def jsTruthyString : Option String → Bool
  | some v => v ≠ ""
  | none => false

/-- `coachingStyle || 'adapter'` applied to the route parameter (line 87);
an absent or empty parameter falls back to `'adapter'`. -/
def coachingStyleParam : Option String → String
  | some v => if v = "" then "adapter" else v
  | none => "adapter"

/-- The initial `useState` values of the screen (lines 77-95). -/
def initialScreenState (coachingStyle : Option String) : ScreenState where
  loading := true
  error := none
  onboardingConfig := none
  currentStepId := ""
  stepHistory := []
  interactionState := InteractionState.none
  showContent := false
  data :=
    { coachingStyle := coachingStyleParam coachingStyle
      conscientiousness := none
      regulatoryFocus := none
      locusOfControl := none
      mindset := none
      extraversion := 50
      agreeableness := 50
      currentFocus := "" }

/-- The three ways the configuration fetch can resolve: the promise rejects
(network failure), the response is not ok, or it yields a configuration. -/
inductive FetchOutcome where
  | rejected (message : String)
  | notOk
  | ok (config : OnboardingConfig)

/-- `fetchOnboardingConfig` (lines 104-127): `setLoading(true)`, then either
the catch branch records the error message (a non-ok response throws
`'Failed to fetch onboarding configuration'`), or the success branch stores
the configuration, selects the first step and installs the server defaults
while preserving `coachingStyle`; `finally` clears `loading`. -/
def fetchOnboardingConfig (s : ScreenState) (outcome : FetchOutcome) : ScreenState :=
  let s := { s with loading := true }
  let s :=
    match outcome with
    | FetchOutcome.rejected message => { s with error := some message }
    | FetchOutcome.notOk => { s with error := some "Failed to fetch onboarding configuration" }
    | FetchOutcome.ok config =>
      let s := { s with onboardingConfig := some config }
      match config.steps with
      | [] => s
      | first :: _ =>
        { s with currentStepId := first.id
                 data := { config.initialData with coachingStyle := s.data.coachingStyle } }
  { s with loading := false }

/-- `getCurrentStep` (lines 151-154). -/
def getCurrentStep (s : ScreenState) : Option OnboardingStep :=
  match s.onboardingConfig with
  | Option.none => none
  | some config => config.steps.find? (fun step => step.id == s.currentStepId)

/-- The synchronous part of `navigateToStep` (lines 157-164): push the
current step onto the history when requested and mark the transition as in
flight. -/
def navigateToStepStart (s : ScreenState) (addToHistory : Bool) : ScreenState :=
  { s with stepHistory := if addToHistory then s.stepHistory ++ [s.currentStepId] else s.stepHistory
           interactionState := InteractionState.transitioning }

/-- The delayed completion of `navigateToStep` (lines 166-171): switch to the
target step and leave the transitioning state. -/
def navigateToStepFinish (s : ScreenState) (stepId : String) : ScreenState :=
  { s with currentStepId := stepId
           interactionState := InteractionState.none }

/-- `navigateToStep` run to completion (start followed by the timed finish). -/
def navigateToStep (s : ScreenState) (stepId : String) (addToHistory : Bool := true) :
    ScreenState :=
  navigateToStepFinish (navigateToStepStart s addToHistory) stepId

/-- `handleBackPress` (lines 175-185): with a non-empty history, pop its last
entry and navigate there without re-recording history; otherwise delegate to
`router.back()`. -/
def handleBackPress (s : ScreenState) : ScreenState × List Effect :=
  match s.stepHistory.getLast? with
  | some previousStepId =>
    (navigateToStep { s with stepHistory := s.stepHistory.dropLast } previousStepId false, [])
  | Option.none => (s, [Effect.hostBack])

/-- `handleChoiceSelection` (lines 188-201): write the choice into the answer
record when a target field is given, mark the selection, and — when
`currentStep?.nextStep` is truthy, i.e. present and non-empty (an empty
string is falsy in JS) — schedule a navigation to it.  No check of
`interactionState` is performed. -/
def handleChoiceSelection (s : ScreenState) (choice : String) (field : Option String) :
    ScreenState × List Effect :=
  let d := match field with
    | some f => s.data.setField f choice
    | Option.none => s.data
  let s := { s with data := d, interactionState := InteractionState.selected }
  (s, match (getCurrentStep s).bind OnboardingStep.nextStep with
      | some nextId => if nextId = "" then [] else [Effect.scheduleNavigate nextId]
      | Option.none => [])

/-- `handleSliderComplete` (lines 204-213): mark the selection and schedule a
navigation when `currentStep?.nextStep` is truthy (present and non-empty). -/
def handleSliderComplete (s : ScreenState) : ScreenState × List Effect :=
  let s := { s with interactionState := InteractionState.selected }
  (s, match (getCurrentStep s).bind OnboardingStep.nextStep with
      | some nextId => if nextId = "" then [] else [Effect.scheduleNavigate nextId]
      | Option.none => [])

/-- `handleSliderValueChange` (lines 216-218). -/
def handleSliderValueChange (s : ScreenState) (value : Int) (field : String) : ScreenState :=
  { s with data := s.data.setNumField field value }

/-- JavaScript `String.prototype.trim`: strip whitespace from both ends. -/
def jsTrim (s : String) : String :=
  String.mk (((s.data.dropWhile Char.isWhitespace).reverse.dropWhile Char.isWhitespace).reverse)

/-- `handleFinalSubmit` (lines 221-234): when the free text is non-blank
(`onboardingData.currentFocus.trim()` is truthy), mark the selection and push
the chat route with the serialized record; a blank text does nothing. -/
def handleFinalSubmit (s : ScreenState) : ScreenState × List Effect :=
  if jsTrim s.data.currentFocus ≠ "" then
    ({ s with interactionState := InteractionState.selected },
     [Effect.pushChat s.data.coachingStyle s.data.toJson])
  else (s, [])

/-- `handleAutoProgress` (lines 237-241) with its timer elapsed. -/
def handleAutoProgress (s : ScreenState) (nextStepId : String) : ScreenState :=
  navigateToStep s nextStepId

/-- Run the navigations a handler scheduled (each is
`setTimeout(() => navigateToStep(target), delay)` with the default
`addToHistory`). -/
def runScheduledNavigations (s : ScreenState) (effects : List Effect) : ScreenState :=
  effects.foldl
    (fun st e =>
      match e with
      | Effect.scheduleNavigate target => navigateToStep st target
      | _ => st) s

/-- What the screen's render function returns, at the granularity the claims
need (lines 436-522): the loading indicator, the error screen (which always
carries the retry button), or the main screen whose content area is
`renderStepContent` for the current step id. -/
inductive Rendered where
  | loadingScreen
  | errorScreen (hasRetryButton : Bool)
  | stepScreen (currentStepId : String)
deriving DecidableEq, Repr

/-- The top-level branch structure of the render (lines 436-522):
`if (loading) ...` then `if (error || !onboardingConfig) ...` then the step
content. -/
def render (s : ScreenState) : Rendered :=
  if s.loading then Rendered.loadingScreen
  else if jsTruthyString s.error || s.onboardingConfig.isNone then Rendered.errorScreen true
  else Rendered.stepScreen s.currentStepId

/-! ### User-visible step actions, composed from the handlers

These wrap the handlers exactly the way the render wires them up
(src/unnamed/part_001 lines 276-418), with the scheduled navigation timers
run to completion. -/

/-- Fire the auto-progress callback of the current step:
`handleAutoProgress(currentStep.nextStep!, currentStep.autoProgressDelay)`. -/
def autoProgressCurrent (s : ScreenState) : ScreenState :=
  match (getCurrentStep s).bind OnboardingStep.nextStep with
  | some nextId => handleAutoProgress s nextId
  | Option.none => s

/-- Press one choice card of the current step:
`handleChoiceSelection(choice.value, currentStep.field)`, then the scheduled
navigation fires. -/
def selectChoiceOnCurrent (s : ScreenState) (choice : StepChoice) : ScreenState :=
  match getCurrentStep s with
  | some step =>
    let r := handleChoiceSelection s choice.value step.field
    runScheduledNavigations r.1 r.2
  | Option.none => s

/-- Drag the slider of the current step to `value`
(`handleSliderValueChange(value, currentStep.field!)`) and press Continue
(`handleSliderComplete`), then the scheduled navigation fires. -/
def completeSliderOnCurrent (s : ScreenState) (value : Int) : ScreenState :=
  match getCurrentStep s with
  | some step =>
    let s := handleSliderValueChange s value (step.field.getD "")
    let r := handleSliderComplete s
    runScheduledNavigations r.1 r.2
  | Option.none => s

/-- Type into the final text input:
`setOnboardingData(prev => ({ ...prev, currentFocus: text }))` (line 385). -/
def typeCurrentFocus (s : ScreenState) (text : String) : ScreenState :=
  { s with data := { s.data with currentFocus := text } }

/-- The wizard played through in the documented default order on the fetched
configuration: fetch succeeds, the welcome messages auto-progress, the four
choice questions are answered with the given choices (each interleaved
transition banner auto-progresses), the two sliders are dragged to the given
values and completed, the final messages auto-progress, and the final text is
typed.  Returns the state on the terminal step, before the submit press. -/
def defaultWalk (param : Option String) (c1 c2 c3 c4 : StepChoice) (v1 v2 : Int)
    (finalText : String) : ScreenState :=
  let s := fetchOnboardingConfig (initialScreenState param)
    (FetchOutcome.ok onboardingQuestionsConfig)
  let s := autoProgressCurrent s
  let s := selectChoiceOnCurrent s c1
  let s := autoProgressCurrent s
  let s := selectChoiceOnCurrent s c2
  let s := autoProgressCurrent s
  let s := selectChoiceOnCurrent s c3
  let s := autoProgressCurrent s
  let s := selectChoiceOnCurrent s c4
  let s := autoProgressCurrent s
  let s := completeSliderOnCurrent s v1
  let s := autoProgressCurrent s
  let s := completeSliderOnCurrent s v2
  let s := autoProgressCurrent s
  typeCurrentFocus s finalText

/-- The declared choices of the configuration step with the given id. -/
def stepChoices (stepId : String) : List StepChoice :=
  (((onboardingQuestionsConfig.steps.find? (fun step => step.id == stepId)).bind
    OnboardingStep.choices)).getD []

/-! ### The slider widget (src/components/OnboardingSliderCard.tsx)

Pixel coordinates are modelled as rationals.  `Math.round` rounds half away
from zero toward positive infinity, which on the non-negative values below
agrees with Mathlib's `round`. -/

/-- The value reported by `panGesture.onUpdate` (lines 97-108): `none` when
the guard `sliderWidth.value <= 0` returns early, otherwise
`Math.round(clamp(x, 0, sliderWidth) / sliderWidth * 100)` passed to
`onValueChange`. -/
def sliderOnUpdate (sliderWidth x : ℚ) : Option ℤ :=
  if sliderWidth ≤ 0 then none
  else
    let clampedX := max 0 (min sliderWidth x)
    some (round (clampedX / sliderWidth * 100))

/-- The value reported by `panGesture.onStart` (lines 84-95).  Unlike
`onUpdate`, this handler has no width guard: with `sliderWidth` still `0`
(its initial shared value before layout measures the track) the clamped
offset is `0` and the division is the floating-point `0 / 0 = NaN`, so the
callback receives `Math.round(NaN) = NaN` — `none` models that NaN report
(no integer is delivered).  On any non-zero width the handler reports the
rounded clamped ratio, as `onUpdate` does. -/
def sliderOnStart (sliderWidth x : ℚ) : Option ℤ :=
  if sliderWidth = 0 then none
  else some (round (max 0 (min sliderWidth x) / sliderWidth * 100))

/-! ### The answer-record context provider (src/components/TypingIndicator.tsx,
lines 157-219) -/

/-- The provider's `OnboardingData` (lines 160-169); here `coachingStyle` is
also nullable. -/
structure ContextOnboardingData where
  coachingStyle : Option String
  conscientiousness : Option String
  regulatoryFocus : Option String
  locusOfControl : Option String
  mindset : Option String
  extraversion : Int
  agreeableness : Int
  currentFocus : String
deriving DecidableEq, Repr

/-- `initialOnboardingData` (lines 179-188). -/
def initialOnboardingData : ContextOnboardingData where
  coachingStyle := none
  conscientiousness := none
  regulatoryFocus := none
  locusOfControl := none
  mindset := none
  extraversion := 50
  agreeableness := 50
  currentFocus := ""

/-- `resetOnboardingData` (lines 201-203): replaces the store with the
initial record, whatever it currently holds. -/
def resetOnboardingData (_current : ContextOnboardingData) : ContextOnboardingData :=
  initialOnboardingData

/-! ### The variant onboarding screen whose steps declare `previousStep`
(src/unnamed/part_002) -/

namespace P2

/-- The variant's step `type` tag (line 46). -/
inductive StepType
  | messages
  | cardChoice
  | transitionMessage
  | slider
  | finalInput
deriving DecidableEq, Repr

/-- The variant's `OnboardingStep` interface (lines 44-64); optional members
are `Option`s. -/
structure OnboardingStep where
  id : String
  type : StepType
  question : Option String := none
  message : Option String := none
  messages : Option (List StepMessage) := none
  choices : Option (List StepChoice) := none
  leftLabel : Option String := none
  rightLabel : Option String := none
  field : Option String := none
  icon : Option String := none
  inputPlaceholder : Option String := none
  submitButtonText : Option String := none
  nextStep : Option String := none
  previousStep : Option String := none
deriving DecidableEq, Repr

/-- The slice of the variant screen's component state its back handler reads
and writes (lines 98-101). -/
structure ScreenState where
  onboardingSteps : Option (List OnboardingStep)
  currentStepId : String
  interactionState : InteractionState
deriving DecidableEq, Repr

/-- `getCurrentStep` (lines 158-161). -/
def getCurrentStep (s : ScreenState) : Option OnboardingStep :=
  match s.onboardingSteps with
  | Option.none => none
  | some steps => steps.find? (fun step => step.id == s.currentStepId)

/-- `animateToNextStep` (lines 163-174) run to completion: the transitioning
phase followed by the timed switch to the target step. -/
def animateToNextStep (s : ScreenState) (nextStepId : String) : ScreenState :=
  { s with currentStepId := nextStepId
           interactionState := InteractionState.none }

/-- `handleBackPress` (lines 190-200): `router.back()` when there is no
current step or it declares no (truthy) `previousStep`; otherwise navigate to
the declared `previousStep`. -/
def handleBackPress (s : ScreenState) : ScreenState × List Effect :=
  match getCurrentStep s with
  | Option.none => (s, [Effect.hostBack])
  | some step =>
    match step.previousStep with
    | Option.none => (s, [Effect.hostBack])
    | some previousStepId =>
      if previousStepId = "" then (s, [Effect.hostBack])
      else (animateToNextStep s previousStepId, [])

/-- The first two steps of the `GET /api/onboarding` configuration this
variant fetches (src/unnamed/part_000 lines 629-660), transcribed verbatim. -/
def sampleSteps : List OnboardingStep := [
  { id := "initialMessages"
    type := StepType.messages
    messages := some [
      { text := "Welcome.", delay := some 0 },
      { text := "I\x27m here to be a supportive partner, at your pace. No pressure.", delay := some 1200 },
      { text := "To get started, I have one quick question to understand your style.", delay := some 3000 }]
    nextStep := some "conscientiousnessQuestion" },
  { id := "conscientiousnessQuestion"
    type := StepType.cardChoice
    question := some "When you\x27re at your best, are you more of a meticulous planner who loves a detailed roadmap, or a flexible adapter who thrives on creative problem-solving?"
    choices := some [
      { id := "planner", text := "Meticulous Planner", icon := "map", value := "planner" },
      { id := "adapter", text := "Flexible Adapter", icon := "wand", value := "adapter" }]
    field := some "conscientiousness"
    nextStep := some "transitionToRegulatory"
    previousStep := some "initialMessages" }]

end P2

/-! ### The chat screen (src/unnamed/part_000) -/

namespace Chat

/-- The chat screen's `OnboardingData` interface (lines 40-48). -/
structure OnboardingData where
  coachingStyle : String
  regulatoryFocus : Option String
  locusOfControl : Option String
  mindset : Option String
  extraversion : Int
  agreeableness : Int
  currentFocus : String
deriving DecidableEq, Repr

/-- The fallback reply of `generateAIResponse` when no onboarding data was
passed (lines 284-286). -/
def noDataResponse : String :=
  "I appreciate you sharing that. Tell me more about what\x27s driving this for you?"

/-- The base responses pushed for the coaching style (lines 293-301). -/
def coachingStyleResponses (data : OnboardingData) : List String :=
  if data.coachingStyle = "planner" then
    ["Let me help you break this down into actionable steps.",
     "What specific outcome are you hoping to achieve here?",
     "This sounds like something we can create a structured approach for."]
  else
    ["I\x27m curious about what this means to you personally.",
     "What feels like the right next step from where you are now?",
     "Let\x27s explore this together and see what emerges."]

/-- The responses pushed for the regulatory focus (lines 304-310). -/
def regulatoryFocusResponses (data : OnboardingData) : List String :=
  if data.regulatoryFocus = some "promotion" then
    ["What opportunities do you see in this situation?",
     "How might this help you move toward your ideal outcome?"]
  else if data.regulatoryFocus = some "prevention" then
    ["What potential challenges should we be mindful of?",
     "How can we make sure you feel secure as you move forward?"]
  else []

/-- The responses pushed for a growth mindset (lines 312-315). -/
def mindsetResponses (data : OnboardingData) : List String :=
  if data.mindset = some "growth" then
    ["What might you learn from this experience?",
     "How could this challenge help you develop new capabilities?"]
  else []

/-- The responses pushed for the extraversion score (lines 317-323). -/
def extraversionResponses (data : OnboardingData) : List String :=
  if data.extraversion > 60 then
    ["Who else might have insights that could help with this?",
     "Have you had a chance to talk this through with someone you trust?"]
  else
    ["What does your inner wisdom tell you about this?",
     "When you sit quietly with this, what comes up for you?"]

/-- The responses pushed for the agreeableness score (lines 325-331). -/
def agreeablenessResponses (data : OnboardingData) : List String :=
  if data.agreeableness > 60 then
    ["How do you think others might be affected by this?",
     "What would feel like a win-win approach here?"]
  else
    ["What\x27s your honest assessment of what needs to happen?",
     "Sometimes the direct path is the kindest - what would that look like?"]

/-- The `responses` array built up by `generateAIResponse` (lines 290-331),
in push order. -/
def candidateResponses (data : OnboardingData) : List String :=
  coachingStyleResponses data ++ regulatoryFocusResponses data ++
  mindsetResponses data ++ extraversionResponses data ++ agreeablenessResponses data

/-- `generateAIResponse` (lines 283-334); the user message is never consulted
and `Math.random()` is the parameter `r ∈ [0, 1)`, indexed through
`Math.floor(r * responses.length)`. -/
def generateAIResponse (_userMessage : String) (data : Option OnboardingData) (r : ℚ) :
    Option String :=
  match data with
  | Option.none => some noDataResponse
  | some d =>
    let responses := candidateResponses d
    responses.get? (Int.floor (r * responses.length)).toNat

/-- Every string `generateAIResponse` can ever return: the union of all
branch blocks plus the no-data fallback. -/
def allCannedResponses : List String :=
  [noDataResponse,
   "Let me help you break this down into actionable steps.",
   "What specific outcome are you hoping to achieve here?",
   "This sounds like something we can create a structured approach for.",
   "I\x27m curious about what this means to you personally.",
   "What feels like the right next step from where you are now?",
   "Let\x27s explore this together and see what emerges.",
   "What opportunities do you see in this situation?",
   "How might this help you move toward your ideal outcome?",
   "What potential challenges should we be mindful of?",
   "How can we make sure you feel secure as you move forward?",
   "What might you learn from this experience?",
   "How could this challenge help you develop new capabilities?",
   "Who else might have insights that could help with this?",
   "Have you had a chance to talk this through with someone you trust?",
   "What does your inner wisdom tell you about this?",
   "When you sit quietly with this, what comes up for you?",
   "How do you think others might be affected by this?",
   "What would feel like a win-win approach here?",
   "What\x27s your honest assessment of what needs to happen?",
   "Sometimes the direct path is the kindest - what would that look like?"]

end Chat

/-! ### Helper lemmas -/

/-- Trimming the empty string yields the empty string. -/
lemma jsTrim_empty : jsTrim "" = "" := rfl

/-- A string with a non-empty trim is itself non-empty. -/
lemma ne_empty_of_jsTrim_ne_empty {t : String} (h : jsTrim t ≠ "") : t ≠ "" := by
  intro he
  exact h (he ▸ jsTrim_empty)

/-- `getCurrentStep` only reads the configuration and the current step id,
so updating the answer record and interaction state leaves it unchanged. -/
lemma getCurrentStep_update (s : ScreenState) (d : OnboardingData) (i : InteractionState) :
    getCurrentStep { s with data := d, interactionState := i } = getCurrentStep s := rfl

/-- Likewise for an update of the interaction state alone. -/
lemma getCurrentStep_update_interaction (s : ScreenState) (i : InteractionState) :
    getCurrentStep { s with interactionState := i } = getCurrentStep s := rfl

/-- When the state holds a configuration, `getCurrentStep` is the search for
the current id among its steps. -/
lemma getCurrentStep_eq_find (s : ScreenState) (cfg : OnboardingConfig)
    (h : s.onboardingConfig = some cfg) :
    getCurrentStep s = cfg.steps.find? (fun step => step.id == s.currentStepId) := by
  simp only [getCurrentStep, h]

/-- The state `handleChoiceSelection` produces keeps the configuration and
the current step id. -/
lemma handleChoiceSelection_fst (s : ScreenState) (choice : String) (field : Option String) :
    (handleChoiceSelection s choice field).1.onboardingConfig = s.onboardingConfig ∧
    (handleChoiceSelection s choice field).1.currentStepId = s.currentStepId :=
  ⟨rfl, rfl⟩

/-- The state `handleSliderComplete` produces keeps the current step id. -/
lemma handleSliderComplete_fst (s : ScreenState) :
    (handleSliderComplete s).1.currentStepId = s.currentStepId :=
  rfl

/-- A choice on a step without a `nextStep` schedules nothing. -/
lemma handleChoiceSelection_effects_of_no_next (s : ScreenState) (choice : String)
    (field : Option String) {step : OnboardingStep}
    (hstep : getCurrentStep s = some step) (hnone : step.nextStep = none) :
    (handleChoiceSelection s choice field).2 = [] := by
  simp [handleChoiceSelection, getCurrentStep_update, hstep, hnone]

/-- A choice on a step whose `nextStep` is the empty string (falsy in JS)
schedules nothing. -/
lemma handleChoiceSelection_effects_of_empty_next (s : ScreenState) (choice : String)
    (field : Option String) {step : OnboardingStep}
    (hstep : getCurrentStep s = some step) (hempty : step.nextStep = some "") :
    (handleChoiceSelection s choice field).2 = [] := by
  simp [handleChoiceSelection, getCurrentStep_update, hstep, hempty]

/-- A choice on a step with a truthy (non-empty) `nextStep` schedules exactly
one navigation to it. -/
lemma handleChoiceSelection_effects_of_next (s : ScreenState) (choice : String)
    (field : Option String) {step : OnboardingStep} {target : String}
    (hstep : getCurrentStep s = some step) (hnext : step.nextStep = some target)
    (hne : target ≠ "") :
    (handleChoiceSelection s choice field).2 = [Effect.scheduleNavigate target] := by
  simp [handleChoiceSelection, getCurrentStep_update, hstep, hnext, hne]

/-- A choice while no current step resolves schedules nothing. -/
lemma handleChoiceSelection_effects_of_none (s : ScreenState) (choice : String)
    (field : Option String) (h : getCurrentStep s = none) :
    (handleChoiceSelection s choice field).2 = [] := by
  simp [handleChoiceSelection, getCurrentStep_update, h]

/-- Completing a slider on a step without a `nextStep` schedules nothing. -/
lemma handleSliderComplete_effects_of_no_next (s : ScreenState) {step : OnboardingStep}
    (hstep : getCurrentStep s = some step) (hnone : step.nextStep = none) :
    (handleSliderComplete s).2 = [] := by
  simp [handleSliderComplete, getCurrentStep_update_interaction, hstep, hnone]

/-- Completing a slider on a step whose `nextStep` is the empty string (falsy
in JS) schedules nothing. -/
lemma handleSliderComplete_effects_of_empty_next (s : ScreenState) {step : OnboardingStep}
    (hstep : getCurrentStep s = some step) (hempty : step.nextStep = some "") :
    (handleSliderComplete s).2 = [] := by
  simp [handleSliderComplete, getCurrentStep_update_interaction, hstep, hempty]

/-- Completing a slider on a step with a truthy (non-empty) `nextStep`
schedules exactly one navigation to it. -/
lemma handleSliderComplete_effects_of_next (s : ScreenState) {step : OnboardingStep}
    {target : String}
    (hstep : getCurrentStep s = some step) (hnext : step.nextStep = some target)
    (hne : target ≠ "") :
    (handleSliderComplete s).2 = [Effect.scheduleNavigate target] := by
  simp [handleSliderComplete, getCurrentStep_update_interaction, hstep, hnext, hne]

/-- `round` is monotone (used for the slider bounds). -/
lemma round_mono_of_le {a b : ℚ} (h : a ≤ b) : round a ≤ round b := by
  rw [round_eq, round_eq]
  exact Int.floor_le_floor (by linarith)

/-- Parsing the serialized answer record recovers it exactly. -/
lemma fromJson_toJson (d : OnboardingData) : OnboardingData.fromJson d.toJson = some d := by
  rcases d with ⟨cs, c, r, l, m, e, a, f⟩
  cases c <;> cases r <;> cases l <;> cases m <;> rfl

/-- When the trimmed text is non-empty, `handleFinalSubmit` marks the
selection and pushes the chat route with the serialized record. -/
lemma handleFinalSubmit_of_ne {s : ScreenState} (h : jsTrim s.data.currentFocus ≠ "") :
    handleFinalSubmit s =
      ({ s with interactionState := InteractionState.selected },
       [Effect.pushChat s.data.coachingStyle s.data.toJson]) := by
  simp [handleFinalSubmit, h]

/-! ### Theorems for the claims -/

/-- C7: invoking goBack from the second step (the history holds exactly the
first step) returns the sequencer to the first step, leaves every recorded
field of the answer record unchanged, and performs no host back action. -/
theorem goBack_from_second_step_preserves_answers
    (firstId secondId : String) (l sc : Bool) (e : Option String)
    (cfg : Option OnboardingConfig) (ist : InteractionState) (d : OnboardingData) :
    (handleBackPress
        { loading := l, error := e, onboardingConfig := cfg, currentStepId := secondId,
          stepHistory := [firstId], interactionState := ist, showContent := sc,
          data := d }).1.currentStepId = firstId ∧
    (handleBackPress
        { loading := l, error := e, onboardingConfig := cfg, currentStepId := secondId,
          stepHistory := [firstId], interactionState := ist, showContent := sc,
          data := d }).1.data = d ∧
    (handleBackPress
        { loading := l, error := e, onboardingConfig := cfg, currentStepId := secondId,
          stepHistory := [firstId], interactionState := ist, showContent := sc,
          data := d }).2 = [] :=
  ⟨rfl, rfl, rfl⟩

/-- Witness for C7: concrete first and second steps of the fetched
configuration, with the conscientiousness answer already recorded. -/
theorem goBack_from_second_step_preserves_answers_witness :
    (handleBackPress
        { loading := false, error := none,
          onboardingConfig := some onboardingQuestionsConfig,
          currentStepId := "conscientiousness_question",
          stepHistory := ["welcome_messages"], interactionState := InteractionState.none,
          showContent := true,
          data := { coachingStyle := "adapter", conscientiousness := some "planner",
                    regulatoryFocus := none, locusOfControl := none, mindset := none,
                    extraversion := 50, agreeableness := 50,
                    currentFocus := "" } }).1.currentStepId = "welcome_messages" ∧
    (handleBackPress
        { loading := false, error := none,
          onboardingConfig := some onboardingQuestionsConfig,
          currentStepId := "conscientiousness_question",
          stepHistory := ["welcome_messages"], interactionState := InteractionState.none,
          showContent := true,
          data := { coachingStyle := "adapter", conscientiousness := some "planner",
                    regulatoryFocus := none, locusOfControl := none, mindset := none,
                    extraversion := 50, agreeableness := 50,
                    currentFocus := "" } }).1.data =
      { coachingStyle := "adapter", conscientiousness := some "planner",
        regulatoryFocus := none, locusOfControl := none, mindset := none,
        extraversion := 50, agreeableness := 50, currentFocus := "" } ∧
    (handleBackPress
        { loading := false, error := none,
          onboardingConfig := some onboardingQuestionsConfig,
          currentStepId := "conscientiousness_question",
          stepHistory := ["welcome_messages"], interactionState := InteractionState.none,
          showContent := true,
          data := { coachingStyle := "adapter", conscientiousness := some "planner",
                    regulatoryFocus := none, locusOfControl := none, mindset := none,
                    extraversion := 50, agreeableness := 50,
                    currentFocus := "" } }).2 = [] :=
  goBack_from_second_step_preserves_answers "welcome_messages" "conscientiousness_question"
    false true none (some onboardingQuestionsConfig) InteractionState.none
    { coachingStyle := "adapter", conscientiousness := some "planner",
      regulatoryFocus := none, locusOfControl := none, mindset := none,
      extraversion := 50, agreeableness := 50, currentFocus := "" }

/-- C8: the answer record is created with the documented defaults — midpoint
50 for the numeric fields, null for every enum field, the empty string for
the free text — both in the context provider's initial record and in the
fetched configuration's `initialData`, and resetting the flow restores
exactly the provider defaults. -/
theorem answer_record_defaults_and_reset :
    initialOnboardingData.conscientiousness = none ∧
    initialOnboardingData.regulatoryFocus = none ∧
    initialOnboardingData.locusOfControl = none ∧
    initialOnboardingData.mindset = none ∧
    initialOnboardingData.extraversion = 50 ∧
    initialOnboardingData.agreeableness = 50 ∧
    initialOnboardingData.currentFocus = "" ∧
    (∀ d : ContextOnboardingData, resetOnboardingData d = initialOnboardingData) ∧
    onboardingQuestionsConfig.initialData.conscientiousness = none ∧
    onboardingQuestionsConfig.initialData.regulatoryFocus = none ∧
    onboardingQuestionsConfig.initialData.locusOfControl = none ∧
    onboardingQuestionsConfig.initialData.mindset = none ∧
    onboardingQuestionsConfig.initialData.extraversion = 50 ∧
    onboardingQuestionsConfig.initialData.agreeableness = 50 ∧
    onboardingQuestionsConfig.initialData.currentFocus = "" :=
  ⟨rfl, rfl, rfl, rfl, rfl, rfl, rfl, fun _ => rfl,
   rfl, rfl, rfl, rfl, rfl, rfl, rfl⟩

/-- C9: whenever the configuration fetch fails — the promise rejects with any
message, or the response is not ok — the screen renders the error state with
the retry button, and the error state is never the step-content screen. -/
theorem failed_fetch_renders_error_never_steps (p : Option String) (msg : String) :
    render (fetchOnboardingConfig (initialScreenState p) (FetchOutcome.rejected msg)) =
      Rendered.errorScreen true ∧
    render (fetchOnboardingConfig (initialScreenState p) FetchOutcome.notOk) =
      Rendered.errorScreen true ∧
    ∀ stepId, Rendered.errorScreen true ≠ Rendered.stepScreen stepId := by
  refine ⟨?_, ?_, fun stepId => by simp⟩ <;>
    simp [render, fetchOnboardingConfig, initialScreenState, jsTruthyString]

/-- Witness for C9: a rejected fetch with a concrete message, and the not-ok
response, both render the error screen. -/
theorem failed_fetch_renders_error_never_steps_witness :
    render (fetchOnboardingConfig (initialScreenState none)
        (FetchOutcome.rejected "Network request failed")) = Rendered.errorScreen true ∧
    render (fetchOnboardingConfig (initialScreenState none) FetchOutcome.notOk) =
      Rendered.errorScreen true ∧
    ∀ stepId, Rendered.errorScreen true ≠ Rendered.stepScreen stepId :=
  failed_fetch_renders_error_never_steps none "Network request failed"

/-- The shape of every state the default walk passes through: configuration
loaded, no error, on the given step with the given visit history and answer
record. -/
def walkState (_param : Option String) (stepId : String) (history : List String)
    (d : OnboardingData) : ScreenState where
  loading := false
  error := none
  onboardingConfig := some onboardingQuestionsConfig
  currentStepId := stepId
  stepHistory := history
  interactionState := InteractionState.none
  showContent := false
  data := d

/-- The answer record of the default walk, by field. -/
def walkData (param : Option String) (c1 c2 c3 c4 : Option String) (v1 v2 : Int)
    (focus : String) : OnboardingData where
  coachingStyle := coachingStyleParam param
  conscientiousness := c1
  regulatoryFocus := c2
  locusOfControl := c3
  mindset := c4
  extraversion := v1
  agreeableness := v2
  currentFocus := focus

/-- Stage 0 of the default walk: the successful fetch installs the
configuration, the first step and the server defaults. -/
lemma walk_stage0 (param : Option String) :
    fetchOnboardingConfig (initialScreenState param)
        (FetchOutcome.ok onboardingQuestionsConfig) =
      walkState param "welcome_messages" [] (walkData param none none none none 50 50 "") :=
  rfl

/-- Stage 1: the welcome messages auto-progress to the first question. -/
lemma walk_stage1 (param : Option String) :
    autoProgressCurrent
        (walkState param "welcome_messages" [] (walkData param none none none none 50 50 "")) =
      walkState param "conscientiousness_question" ["welcome_messages"]
        (walkData param none none none none 50 50 "") :=
  rfl

/-- Stage 2: answering the conscientiousness question records the choice and
navigates to the next transition banner. -/
lemma walk_stage2 (param : Option String) (c1 : StepChoice) :
    selectChoiceOnCurrent
        (walkState param "conscientiousness_question" ["welcome_messages"]
          (walkData param none none none none 50 50 "")) c1 =
      walkState param "transition_to_regulatory"
        ["welcome_messages", "conscientiousness_question"]
        (walkData param (some c1.value) none none none 50 50 "") :=
  rfl

/-- Stage 3: the banner auto-progresses to the regulatory-focus question. -/
lemma walk_stage3 (param : Option String) (c1 : StepChoice) :
    autoProgressCurrent
        (walkState param "transition_to_regulatory"
          ["welcome_messages", "conscientiousness_question"]
          (walkData param (some c1.value) none none none 50 50 "")) =
      walkState param "regulatory_focus_question"
        ["welcome_messages", "conscientiousness_question", "transition_to_regulatory"]
        (walkData param (some c1.value) none none none 50 50 "") :=
  rfl

/-- Stage 4: answering the regulatory-focus question. -/
lemma walk_stage4 (param : Option String) (c1 c2 : StepChoice) :
    selectChoiceOnCurrent
        (walkState param "regulatory_focus_question"
          ["welcome_messages", "conscientiousness_question", "transition_to_regulatory"]
          (walkData param (some c1.value) none none none 50 50 "")) c2 =
      walkState param "transition_to_locus"
        ["welcome_messages", "conscientiousness_question", "transition_to_regulatory",
         "regulatory_focus_question"]
        (walkData param (some c1.value) (some c2.value) none none 50 50 "") :=
  rfl

/-- Stage 5: the banner auto-progresses to the locus-of-control question. -/
lemma walk_stage5 (param : Option String) (c1 c2 : StepChoice) :
    autoProgressCurrent
        (walkState param "transition_to_locus"
          ["welcome_messages", "conscientiousness_question", "transition_to_regulatory",
           "regulatory_focus_question"]
          (walkData param (some c1.value) (some c2.value) none none 50 50 "")) =
      walkState param "locus_of_control_question"
        ["welcome_messages", "conscientiousness_question", "transition_to_regulatory",
         "regulatory_focus_question", "transition_to_locus"]
        (walkData param (some c1.value) (some c2.value) none none 50 50 "") :=
  rfl

/-- Stage 6: answering the locus-of-control question. -/
lemma walk_stage6 (param : Option String) (c1 c2 c3 : StepChoice) :
    selectChoiceOnCurrent
        (walkState param "locus_of_control_question"
          ["welcome_messages", "conscientiousness_question", "transition_to_regulatory",
           "regulatory_focus_question", "transition_to_locus"]
          (walkData param (some c1.value) (some c2.value) none none 50 50 "")) c3 =
      walkState param "transition_to_mindset"
        ["welcome_messages", "conscientiousness_question", "transition_to_regulatory",
         "regulatory_focus_question", "transition_to_locus", "locus_of_control_question"]
        (walkData param (some c1.value) (some c2.value) (some c3.value) none 50 50 "") :=
  rfl

/-- Stage 7: the banner auto-progresses to the mindset question. -/
lemma walk_stage7 (param : Option String) (c1 c2 c3 : StepChoice) :
    autoProgressCurrent
        (walkState param "transition_to_mindset"
          ["welcome_messages", "conscientiousness_question", "transition_to_regulatory",
           "regulatory_focus_question", "transition_to_locus", "locus_of_control_question"]
          (walkData param (some c1.value) (some c2.value) (some c3.value) none 50 50 "")) =
      walkState param "mindset_question"
        ["welcome_messages", "conscientiousness_question", "transition_to_regulatory",
         "regulatory_focus_question", "transition_to_locus", "locus_of_control_question",
         "transition_to_mindset"]
        (walkData param (some c1.value) (some c2.value) (some c3.value) none 50 50 "") :=
  rfl

/-- Stage 8: answering the mindset question. -/
lemma walk_stage8 (param : Option String) (c1 c2 c3 c4 : StepChoice) :
    selectChoiceOnCurrent
        (walkState param "mindset_question"
          ["welcome_messages", "conscientiousness_question", "transition_to_regulatory",
           "regulatory_focus_question", "transition_to_locus", "locus_of_control_question",
           "transition_to_mindset"]
          (walkData param (some c1.value) (some c2.value) (some c3.value) none 50 50 "")) c4 =
      walkState param "transition_to_sliders"
        ["welcome_messages", "conscientiousness_question", "transition_to_regulatory",
         "regulatory_focus_question", "transition_to_locus", "locus_of_control_question",
         "transition_to_mindset", "mindset_question"]
        (walkData param (some c1.value) (some c2.value) (some c3.value) (some c4.value)
          50 50 "") :=
  rfl

/-- Stage 9: the banner auto-progresses to the extraversion slider. -/
lemma walk_stage9 (param : Option String) (c1 c2 c3 c4 : StepChoice) :
    autoProgressCurrent
        (walkState param "transition_to_sliders"
          ["welcome_messages", "conscientiousness_question", "transition_to_regulatory",
           "regulatory_focus_question", "transition_to_locus", "locus_of_control_question",
           "transition_to_mindset", "mindset_question"]
          (walkData param (some c1.value) (some c2.value) (some c3.value) (some c4.value)
            50 50 "")) =
      walkState param "extraversion_slider"
        ["welcome_messages", "conscientiousness_question", "transition_to_regulatory",
         "regulatory_focus_question", "transition_to_locus", "locus_of_control_question",
         "transition_to_mindset", "mindset_question", "transition_to_sliders"]
        (walkData param (some c1.value) (some c2.value) (some c3.value) (some c4.value)
          50 50 "") :=
  rfl

/-- Stage 10: dragging and completing the extraversion slider. -/
lemma walk_stage10 (param : Option String) (c1 c2 c3 c4 : StepChoice) (v1 : Int) :
    completeSliderOnCurrent
        (walkState param "extraversion_slider"
          ["welcome_messages", "conscientiousness_question", "transition_to_regulatory",
           "regulatory_focus_question", "transition_to_locus", "locus_of_control_question",
           "transition_to_mindset", "mindset_question", "transition_to_sliders"]
          (walkData param (some c1.value) (some c2.value) (some c3.value) (some c4.value)
            50 50 "")) v1 =
      walkState param "transition_to_agreeableness"
        ["welcome_messages", "conscientiousness_question", "transition_to_regulatory",
         "regulatory_focus_question", "transition_to_locus", "locus_of_control_question",
         "transition_to_mindset", "mindset_question", "transition_to_sliders",
         "extraversion_slider"]
        (walkData param (some c1.value) (some c2.value) (some c3.value) (some c4.value)
          v1 50 "") :=
  rfl

/-- Stage 11: the banner auto-progresses to the agreeableness slider. -/
lemma walk_stage11 (param : Option String) (c1 c2 c3 c4 : StepChoice) (v1 : Int) :
    autoProgressCurrent
        (walkState param "transition_to_agreeableness"
          ["welcome_messages", "conscientiousness_question", "transition_to_regulatory",
           "regulatory_focus_question", "transition_to_locus", "locus_of_control_question",
           "transition_to_mindset", "mindset_question", "transition_to_sliders",
           "extraversion_slider"]
          (walkData param (some c1.value) (some c2.value) (some c3.value) (some c4.value)
            v1 50 "")) =
      walkState param "agreeableness_slider"
        ["welcome_messages", "conscientiousness_question", "transition_to_regulatory",
         "regulatory_focus_question", "transition_to_locus", "locus_of_control_question",
         "transition_to_mindset", "mindset_question", "transition_to_sliders",
         "extraversion_slider", "transition_to_agreeableness"]
        (walkData param (some c1.value) (some c2.value) (some c3.value) (some c4.value)
          v1 50 "") :=
  rfl

/-- Stage 12: dragging and completing the agreeableness slider. -/
lemma walk_stage12 (param : Option String) (c1 c2 c3 c4 : StepChoice) (v1 v2 : Int) :
    completeSliderOnCurrent
        (walkState param "agreeableness_slider"
          ["welcome_messages", "conscientiousness_question", "transition_to_regulatory",
           "regulatory_focus_question", "transition_to_locus", "locus_of_control_question",
           "transition_to_mindset", "mindset_question", "transition_to_sliders",
           "extraversion_slider", "transition_to_agreeableness"]
          (walkData param (some c1.value) (some c2.value) (some c3.value) (some c4.value)
            v1 50 "")) v2 =
      walkState param "final_input"
        ["welcome_messages", "conscientiousness_question", "transition_to_regulatory",
         "regulatory_focus_question", "transition_to_locus", "locus_of_control_question",
         "transition_to_mindset", "mindset_question", "transition_to_sliders",
         "extraversion_slider", "transition_to_agreeableness", "agreeableness_slider"]
        (walkData param (some c1.value) (some c2.value) (some c3.value) (some c4.value)
          v1 v2 "") :=
  rfl

/-- Stage 13: the final messages auto-progress to the terminal text input. -/
lemma walk_stage13 (param : Option String) (c1 c2 c3 c4 : StepChoice) (v1 v2 : Int) :
    autoProgressCurrent
        (walkState param "final_input"
          ["welcome_messages", "conscientiousness_question", "transition_to_regulatory",
           "regulatory_focus_question", "transition_to_locus", "locus_of_control_question",
           "transition_to_mindset", "mindset_question", "transition_to_sliders",
           "extraversion_slider", "transition_to_agreeableness", "agreeableness_slider"]
          (walkData param (some c1.value) (some c2.value) (some c3.value) (some c4.value)
            v1 v2 "")) =
      walkState param "text_input_step"
        ["welcome_messages", "conscientiousness_question", "transition_to_regulatory",
         "regulatory_focus_question", "transition_to_locus", "locus_of_control_question",
         "transition_to_mindset", "mindset_question", "transition_to_sliders",
         "extraversion_slider", "transition_to_agreeableness", "agreeableness_slider",
         "final_input"]
        (walkData param (some c1.value) (some c2.value) (some c3.value) (some c4.value)
          v1 v2 "") :=
  rfl

/-- Stage 14: typing the final text. -/
lemma walk_stage14 (param : Option String) (c1 c2 c3 c4 : StepChoice) (v1 v2 : Int)
    (finalText : String) :
    typeCurrentFocus
        (walkState param "text_input_step"
          ["welcome_messages", "conscientiousness_question", "transition_to_regulatory",
           "regulatory_focus_question", "transition_to_locus", "locus_of_control_question",
           "transition_to_mindset", "mindset_question", "transition_to_sliders",
           "extraversion_slider", "transition_to_agreeableness", "agreeableness_slider",
           "final_input"]
          (walkData param (some c1.value) (some c2.value) (some c3.value) (some c4.value)
            v1 v2 "")) finalText =
      walkState param "text_input_step"
        ["welcome_messages", "conscientiousness_question", "transition_to_regulatory",
         "regulatory_focus_question", "transition_to_locus", "locus_of_control_question",
         "transition_to_mindset", "mindset_question", "transition_to_sliders",
         "extraversion_slider", "transition_to_agreeableness", "agreeableness_slider",
         "final_input"]
        (walkData param (some c1.value) (some c2.value) (some c3.value) (some c4.value)
          v1 v2 finalText) :=
  rfl

/-- The default walk, evaluated end to end. -/
lemma defaultWalk_eq (param : Option String) (c1 c2 c3 c4 : StepChoice) (v1 v2 : Int)
    (finalText : String) :
    defaultWalk param c1 c2 c3 c4 v1 v2 finalText =
      walkState param "text_input_step"
        ["welcome_messages", "conscientiousness_question", "transition_to_regulatory",
         "regulatory_focus_question", "transition_to_locus", "locus_of_control_question",
         "transition_to_mindset", "mindset_question", "transition_to_sliders",
         "extraversion_slider", "transition_to_agreeableness", "agreeableness_slider",
         "final_input"]
        (walkData param (some c1.value) (some c2.value) (some c3.value) (some c4.value)
          v1 v2 finalText) := by
  show typeCurrentFocus (autoProgressCurrent (completeSliderOnCurrent (autoProgressCurrent
    (completeSliderOnCurrent (autoProgressCurrent (selectChoiceOnCurrent (autoProgressCurrent
    (selectChoiceOnCurrent (autoProgressCurrent (selectChoiceOnCurrent (autoProgressCurrent
    (selectChoiceOnCurrent (autoProgressCurrent (fetchOnboardingConfig
      (initialScreenState param) (FetchOutcome.ok onboardingQuestionsConfig)))
    c1)) c2)) c3)) c4)) v1)) v2)) finalText = _
  rw [walk_stage0, walk_stage1, walk_stage2, walk_stage3, walk_stage4, walk_stage5,
    walk_stage6, walk_stage7, walk_stage8, walk_stage9, walk_stage10, walk_stage11,
    walk_stage12, walk_stage13, walk_stage14]

/-- C1: starting the wizard at the first step of the fetched configuration
and answering every step in the documented default order — each declared
`nextStep` followed, any declared choice taken at each choice step, each
slider completed, and a non-blank final text submitted — reaches the
terminal `text_input` step and yields an answer record whose four enum
fields are all non-null and whose `currentFocus` is non-empty (and the
submit pushes the chat route with the serialized record). -/
theorem default_walk_reaches_terminal_with_complete_record
    (param : Option String) (c1 c2 c3 c4 : StepChoice) (v1 v2 : Int) (finalText : String)
    (h1 : c1 ∈ stepChoices "conscientiousness_question")
    (h2 : c2 ∈ stepChoices "regulatory_focus_question")
    (h3 : c3 ∈ stepChoices "locus_of_control_question")
    (h4 : c4 ∈ stepChoices "mindset_question")
    (h5 : jsTrim finalText ≠ "") :
    (defaultWalk param c1 c2 c3 c4 v1 v2 finalText).currentStepId = "text_input_step" ∧
    (getCurrentStep (defaultWalk param c1 c2 c3 c4 v1 v2 finalText)).map OnboardingStep.type =
      some StepType.text_input ∧
    (defaultWalk param c1 c2 c3 c4 v1 v2 finalText).data.conscientiousness = some c1.value ∧
    (defaultWalk param c1 c2 c3 c4 v1 v2 finalText).data.regulatoryFocus = some c2.value ∧
    (defaultWalk param c1 c2 c3 c4 v1 v2 finalText).data.locusOfControl = some c3.value ∧
    (defaultWalk param c1 c2 c3 c4 v1 v2 finalText).data.mindset = some c4.value ∧
    (defaultWalk param c1 c2 c3 c4 v1 v2 finalText).data.currentFocus ≠ "" ∧
    (handleFinalSubmit (defaultWalk param c1 c2 c3 c4 v1 v2 finalText)).2 =
      [Effect.pushChat (defaultWalk param c1 c2 c3 c4 v1 v2 finalText).data.coachingStyle
        (defaultWalk param c1 c2 c3 c4 v1 v2 finalText).data.toJson] := by
  rw [defaultWalk_eq]
  have hfocus :
      (walkState param "text_input_step"
        ["welcome_messages", "conscientiousness_question", "transition_to_regulatory",
         "regulatory_focus_question", "transition_to_locus", "locus_of_control_question",
         "transition_to_mindset", "mindset_question", "transition_to_sliders",
         "extraversion_slider", "transition_to_agreeableness", "agreeableness_slider",
         "final_input"]
        (walkData param (some c1.value) (some c2.value) (some c3.value) (some c4.value)
          v1 v2 finalText)).data.currentFocus = finalText := rfl
  refine ⟨rfl, rfl, rfl, rfl, rfl, rfl, ?_, ?_⟩
  · rw [hfocus]
    exact ne_empty_of_jsTrim_ne_empty h5
  · rw [handleFinalSubmit_of_ne (by rw [hfocus]; exact h5)]

/-- Witness for C1: the walk taken with the planner, promotion, internal and
growth choices, slider values 70 and 30, and the final text `Ship the app`. -/
theorem default_walk_reaches_terminal_with_complete_record_witness :
    (defaultWalk none ⟨"planner", "Meticulous Planner", "map", "planner"⟩
        ⟨"promotion", "Striving to achieve a positive outcome", "star", "promotion"⟩
        ⟨"internal", "Disciplined preparation and hard work", "brain", "internal"⟩
        ⟨"growth", "A skill that can be developed", "leaf", "growth"⟩
        70 30 "Ship the app").currentStepId = "text_input_step" ∧
    (getCurrentStep (defaultWalk none ⟨"planner", "Meticulous Planner", "map", "planner"⟩
        ⟨"promotion", "Striving to achieve a positive outcome", "star", "promotion"⟩
        ⟨"internal", "Disciplined preparation and hard work", "brain", "internal"⟩
        ⟨"growth", "A skill that can be developed", "leaf", "growth"⟩
        70 30 "Ship the app")).map OnboardingStep.type = some StepType.text_input ∧
    (defaultWalk none ⟨"planner", "Meticulous Planner", "map", "planner"⟩
        ⟨"promotion", "Striving to achieve a positive outcome", "star", "promotion"⟩
        ⟨"internal", "Disciplined preparation and hard work", "brain", "internal"⟩
        ⟨"growth", "A skill that can be developed", "leaf", "growth"⟩
        70 30 "Ship the app").data.conscientiousness = some "planner" ∧
    (defaultWalk none ⟨"planner", "Meticulous Planner", "map", "planner"⟩
        ⟨"promotion", "Striving to achieve a positive outcome", "star", "promotion"⟩
        ⟨"internal", "Disciplined preparation and hard work", "brain", "internal"⟩
        ⟨"growth", "A skill that can be developed", "leaf", "growth"⟩
        70 30 "Ship the app").data.regulatoryFocus = some "promotion" ∧
    (defaultWalk none ⟨"planner", "Meticulous Planner", "map", "planner"⟩
        ⟨"promotion", "Striving to achieve a positive outcome", "star", "promotion"⟩
        ⟨"internal", "Disciplined preparation and hard work", "brain", "internal"⟩
        ⟨"growth", "A skill that can be developed", "leaf", "growth"⟩
        70 30 "Ship the app").data.locusOfControl = some "internal" ∧
    (defaultWalk none ⟨"planner", "Meticulous Planner", "map", "planner"⟩
        ⟨"promotion", "Striving to achieve a positive outcome", "star", "promotion"⟩
        ⟨"internal", "Disciplined preparation and hard work", "brain", "internal"⟩
        ⟨"growth", "A skill that can be developed", "leaf", "growth"⟩
        70 30 "Ship the app").data.mindset = some "growth" ∧
    (defaultWalk none ⟨"planner", "Meticulous Planner", "map", "planner"⟩
        ⟨"promotion", "Striving to achieve a positive outcome", "star", "promotion"⟩
        ⟨"internal", "Disciplined preparation and hard work", "brain", "internal"⟩
        ⟨"growth", "A skill that can be developed", "leaf", "growth"⟩
        70 30 "Ship the app").data.currentFocus ≠ "" ∧
    (handleFinalSubmit (defaultWalk none ⟨"planner", "Meticulous Planner", "map", "planner"⟩
        ⟨"promotion", "Striving to achieve a positive outcome", "star", "promotion"⟩
        ⟨"internal", "Disciplined preparation and hard work", "brain", "internal"⟩
        ⟨"growth", "A skill that can be developed", "leaf", "growth"⟩
        70 30 "Ship the app")).2 =
      [Effect.pushChat
        (defaultWalk none ⟨"planner", "Meticulous Planner", "map", "planner"⟩
          ⟨"promotion", "Striving to achieve a positive outcome", "star", "promotion"⟩
          ⟨"internal", "Disciplined preparation and hard work", "brain", "internal"⟩
          ⟨"growth", "A skill that can be developed", "leaf", "growth"⟩
          70 30 "Ship the app").data.coachingStyle
        (defaultWalk none ⟨"planner", "Meticulous Planner", "map", "planner"⟩
          ⟨"promotion", "Striving to achieve a positive outcome", "star", "promotion"⟩
          ⟨"internal", "Disciplined preparation and hard work", "brain", "internal"⟩
          ⟨"growth", "A skill that can be developed", "leaf", "growth"⟩
          70 30 "Ship the app").data.toJson] :=
  default_walk_reaches_terminal_with_complete_record none
    ⟨"planner", "Meticulous Planner", "map", "planner"⟩
    ⟨"promotion", "Striving to achieve a positive outcome", "star", "promotion"⟩
    ⟨"internal", "Disciplined preparation and hard work", "brain", "internal"⟩
    ⟨"growth", "A skill that can be developed", "leaf", "growth"⟩
    70 30 "Ship the app" (by decide) (by decide) (by decide) (by decide) (by decide)

/-- C6: with a non-blank final text, `handleFinalSubmit` navigates to the
chat screen carrying the full answer record serialized, and deserializing
that payload on receipt yields a record equal to the completed one
(serialize-then-parse round trip). -/
theorem final_submit_serializes_and_round_trips (s : ScreenState)
    (h : jsTrim s.data.currentFocus ≠ "") :
    handleFinalSubmit s =
      ({ s with interactionState := InteractionState.selected },
       [Effect.pushChat s.data.coachingStyle s.data.toJson]) ∧
    OnboardingData.fromJson s.data.toJson = some s.data :=
  ⟨handleFinalSubmit_of_ne h, fromJson_toJson s.data⟩

/-- A completed screen state sitting on the terminal step, used as the
concrete input of the C6 witness. -/
def sampleSubmitState : ScreenState where
  loading := false
  error := none
  onboardingConfig := some onboardingQuestionsConfig
  currentStepId := "text_input_step"
  stepHistory := ["welcome_messages", "conscientiousness_question"]
  interactionState := InteractionState.none
  showContent := true
  data :=
    { coachingStyle := "adapter"
      conscientiousness := some "planner"
      regulatoryFocus := some "promotion"
      locusOfControl := some "internal"
      mindset := some "growth"
      extraversion := 70
      agreeableness := 40
      currentFocus := "Ship the app" }

/-- Witness for C6: the round trip at a concrete completed record. -/
theorem final_submit_serializes_and_round_trips_witness :
    handleFinalSubmit sampleSubmitState =
      ({ sampleSubmitState with interactionState := InteractionState.selected },
       [Effect.pushChat sampleSubmitState.data.coachingStyle sampleSubmitState.data.toJson]) ∧
    OnboardingData.fromJson sampleSubmitState.data.toJson = some sampleSubmitState.data :=
  final_submit_serializes_and_round_trips sampleSubmitState (by decide)

/-- Counterexample to C2: the claim promises, for every track width, that
each reported value is `round(clamp(x, 0, trackWidth) / trackWidth * 100)`,
an integer in `[0, 100]`; but `panGesture.onStart` has no width guard, so on
an unmeasured track (width `0`, the shared value's initial state) the
division is the floating-point `0 / 0` and the callback receives
`Math.round(NaN) = NaN` — no integer at all (the update handler's `<= 0`
guard reports nothing there). -/
theorem slider_start_on_zero_width_reports_nan :
    sliderOnStart 0 17 = none ∧ sliderOnUpdate 0 17 = none := by
  constructor <;> simp [sliderOnStart, sliderOnUpdate]

/-- C2 (amended): on a measured track (positive width) every value the drag
handlers report is exactly `round(clamp(x, 0, trackWidth) / trackWidth *
100)`, an integer in `[0, 100]`, monotonically non-decreasing in the pointer
position, and the start and update handlers agree; but on a zero-width track
the update handler's guard reports nothing while the unguarded start handler
reports the floating-point NaN (no integer) to the callback. -/
theorem slider_reports_rounded_clamp_bounded_monotone :
    (∀ (w x : ℚ) (v : ℤ), sliderOnUpdate w x = some v →
      v = round (max 0 (min w x) / w * 100) ∧ 0 ≤ v ∧ v ≤ 100) ∧
    (∀ (w x₁ x₂ : ℚ) (v₁ v₂ : ℤ), sliderOnUpdate w x₁ = some v₁ →
      sliderOnUpdate w x₂ = some v₂ → x₁ ≤ x₂ → v₁ ≤ v₂) ∧
    (∀ (w x : ℚ), 0 < w →
      sliderOnStart w x = some (round (max 0 (min w x) / w * 100)) ∧
      sliderOnUpdate w x = sliderOnStart w x) ∧
    (∀ x : ℚ, sliderOnStart 0 x = none) := by
  have key : ∀ (w x : ℚ) (v : ℤ), sliderOnUpdate w x = some v →
      0 < w ∧ v = round (max 0 (min w x) / w * 100) ∧ 0 ≤ v ∧ v ≤ 100 := by
    intro w x v h
    by_cases hw : w ≤ 0
    · simp [sliderOnUpdate, hw] at h
    · have hwpos : 0 < w := lt_of_not_le hw
      have hv : v = round (max 0 (min w x) / w * 100) := by
        simp [sliderOnUpdate, hw] at h
        exact h.symm
      have h0 : (0 : ℚ) ≤ max 0 (min w x) := le_max_left 0 _
      have h1 : max 0 (min w x) ≤ w := max_le hwpos.le (min_le_left w x)
      have hr0 : (0 : ℚ) ≤ max 0 (min w x) / w * 100 := by positivity
      have hr1 : max 0 (min w x) / w * 100 ≤ 100 := by
        have hq : max 0 (min w x) / w ≤ 1 := (div_le_one hwpos).mpr h1
        nlinarith
      refine ⟨hwpos, hv, ?_, ?_⟩
      · have := round_mono_of_le hr0
        simpa [hv] using this
      · have := round_mono_of_le hr1
        have h100 : round (100 : ℚ) = 100 := by norm_num
        rw [h100] at this
        exact hv ▸ this
  refine ⟨fun w x v h => (key w x v h).2, ?_, ?_, ?_⟩
  · intro w x₁ x₂ v₁ v₂ h₁ h₂ hx
    obtain ⟨hwpos, hv₁, -, -⟩ := key w x₁ v₁ h₁
    obtain ⟨-, hv₂, -, -⟩ := key w x₂ v₂ h₂
    rw [hv₁, hv₂]
    refine round_mono_of_le ?_
    have hclamp : max 0 (min w x₁) ≤ max 0 (min w x₂) :=
      max_le_max le_rfl (min_le_min le_rfl hx)
    gcongr
  · intro w x hw
    have h1 : sliderOnStart w x = some (round (max 0 (min w x) / w * 100)) := by
      simp only [sliderOnStart]
      rw [if_neg hw.ne']
    have h2 : sliderOnUpdate w x = some (round (max 0 (min w x) / w * 100)) := by
      simp only [sliderOnUpdate]
      rw [if_neg (not_le.mpr hw)]
    exact ⟨h1, h2.trans h1.symm⟩
  · intro x
    simp [sliderOnStart]

/-- Witness for C2 (amended): a 200-pixel track with the pointer at 50 pixels
reports `round(50 / 200 * 100) = 25`, which the formula, bound and
handler-agreement clauses all accept. -/
theorem slider_reports_rounded_clamp_bounded_monotone_witness :
    ((25 : ℤ) = round (max 0 (min (200 : ℚ) 50) / 200 * 100) ∧
      0 ≤ (25 : ℤ) ∧ (25 : ℤ) ≤ 100) ∧
    (sliderOnStart 200 50 = some (round (max 0 (min (200 : ℚ) 50) / 200 * 100)) ∧
      sliderOnUpdate 200 50 = sliderOnStart 200 50) := by
  have hval : sliderOnUpdate 200 50 = some 25 := by
    have h : ¬ ((200 : ℚ) ≤ 0) := by norm_num
    simp only [sliderOnUpdate, if_neg h]
    norm_num [round_eq]
  exact ⟨slider_reports_rounded_clamp_bounded_monotone.1 200 50 25 hval,
    slider_reports_rounded_clamp_bounded_monotone.2.2.1 200 50 (by norm_num)⟩

/-! ### States used by the corrected sequencer claims -/

/-- A loaded configuration whose single step declares a `nextStep` that
references no step id. -/
def danglingStepConfig : OnboardingConfig where
  steps := [
    { id := "lone_question"
      type := StepType.choice_question
      choices := some [
        { id := "planner", text := "Meticulous Planner", icon := "map", value := "planner" },
        { id := "adapter", text := "Flexible Adapter", icon := "wand", value := "adapter" }]
      field := some "conscientiousness"
      nextStep := some "missing_step" }]
  initialData := onboardingQuestionsConfig.initialData

/-- A loaded configuration whose single step declares no `nextStep`. -/
def stallStepConfig : OnboardingConfig where
  steps := [
    { id := "lone_question"
      type := StepType.choice_question
      choices := some [
        { id := "planner", text := "Meticulous Planner", icon := "map", value := "planner" },
        { id := "adapter", text := "Flexible Adapter", icon := "wand", value := "adapter" }]
      field := some "conscientiousness" }]
  initialData := onboardingQuestionsConfig.initialData

/-- A loaded configuration whose single step declares the empty string as
its `nextStep` (falsy in JS). -/
def emptyNextStepConfig : OnboardingConfig where
  steps := [
    { id := "lone_question"
      type := StepType.choice_question
      choices := some [
        { id := "planner", text := "Meticulous Planner", icon := "map", value := "planner" },
        { id := "adapter", text := "Flexible Adapter", icon := "wand", value := "adapter" }]
      field := some "conscientiousness"
      nextStep := some "" }]
  initialData := onboardingQuestionsConfig.initialData

/-- The screen after successfully fetching `danglingStepConfig`. -/
def danglingState : ScreenState :=
  fetchOnboardingConfig (initialScreenState none) (FetchOutcome.ok danglingStepConfig)

/-- The screen after successfully fetching `emptyNextStepConfig`. -/
def emptyNextState : ScreenState :=
  fetchOnboardingConfig (initialScreenState none) (FetchOutcome.ok emptyNextStepConfig)

/-- The screen after successfully fetching `stallStepConfig`. -/
def stallState : ScreenState :=
  fetchOnboardingConfig (initialScreenState none) (FetchOutcome.ok stallStepConfig)

/-- Counterexample to C3: on a step whose `nextStep` references no step id of
the loaded configuration, advancing does schedule a transition, and once the
scheduled navigation fires the sequencer no longer sits on the original step,
contradicting "schedules no transition: the sequencer stays on the current
step". -/
theorem advance_on_dangling_next_step_schedules_transition :
    (getCurrentStep danglingState).map OnboardingStep.nextStep = some (some "missing_step") ∧
    (danglingStepConfig.steps.map OnboardingStep.id) = ["lone_question"] ∧
    (handleChoiceSelection danglingState "planner" (some "conscientiousness")).2 =
      [Effect.scheduleNavigate "missing_step"] ∧
    ScreenState.currentStepId
      (runScheduledNavigations
        (handleChoiceSelection danglingState "planner" (some "conscientiousness")).1
        (handleChoiceSelection danglingState "planner" (some "conscientiousness")).2) =
      "missing_step" ∧
    danglingState.currentStepId = "lone_question" :=
  ⟨rfl, rfl, rfl, rfl, rfl⟩

/-- C3 (amended): advancing never raises an error; when the current step's
`nextStep` is undefined — or the empty string, which JS treats as falsy —
no transition is scheduled and the sequencer stays on the current step, but
when `nextStep` is a non-empty id absent from the loaded configuration, a
transition to the dangling id is scheduled — after it fires the current step
resolves to nothing and any further advance schedules no transition, so the
flow silently stops advancing. -/
theorem advance_stalls_on_undefined_and_follows_dangling_next_step
    (s : ScreenState) (cfg : OnboardingConfig) (step : OnboardingStep) (choice : String)
    (hcfg : s.onboardingConfig = some cfg)
    (hstep : getCurrentStep s = some step) :
    (step.nextStep = none →
      (handleChoiceSelection s choice step.field).2 = [] ∧
      (handleChoiceSelection s choice step.field).1.currentStepId = s.currentStepId ∧
      (handleSliderComplete s).2 = [] ∧
      (handleSliderComplete s).1.currentStepId = s.currentStepId) ∧
    (step.nextStep = some "" →
      (handleChoiceSelection s choice step.field).2 = [] ∧
      (handleChoiceSelection s choice step.field).1.currentStepId = s.currentStepId ∧
      (handleSliderComplete s).2 = [] ∧
      (handleSliderComplete s).1.currentStepId = s.currentStepId) ∧
    (∀ target, step.nextStep = some target → target ≠ "" →
      (∀ st ∈ cfg.steps, st.id ≠ target) →
      (handleChoiceSelection s choice step.field).2 = [Effect.scheduleNavigate target] ∧
      (handleSliderComplete s).2 = [Effect.scheduleNavigate target] ∧
      getCurrentStep
        (runScheduledNavigations
          (handleChoiceSelection s choice step.field).1
          (handleChoiceSelection s choice step.field).2) = none ∧
      ∀ choice2 field2,
        (handleChoiceSelection
          (runScheduledNavigations
            (handleChoiceSelection s choice step.field).1
            (handleChoiceSelection s choice step.field).2) choice2 field2).2 = []) := by
  refine ⟨?_, ?_, ?_⟩
  · intro hnone
    exact ⟨handleChoiceSelection_effects_of_no_next s choice step.field hstep hnone,
      (handleChoiceSelection_fst s choice step.field).2,
      handleSliderComplete_effects_of_no_next s hstep hnone,
      handleSliderComplete_fst s⟩
  · intro hempty
    exact ⟨handleChoiceSelection_effects_of_empty_next s choice step.field hstep hempty,
      (handleChoiceSelection_fst s choice step.field).2,
      handleSliderComplete_effects_of_empty_next s hstep hempty,
      handleSliderComplete_fst s⟩
  · intro target htarget hne habsent
    have heff : (handleChoiceSelection s choice step.field).2 =
        [Effect.scheduleNavigate target] :=
      handleChoiceSelection_effects_of_next s choice step.field hstep htarget hne
    have hrun : getCurrentStep
        (runScheduledNavigations
          (handleChoiceSelection s choice step.field).1
          (handleChoiceSelection s choice step.field).2) = none := by
      rw [heff]
      simp only [runScheduledNavigations, List.foldl_cons, List.foldl_nil]
      have hc : (navigateToStep (handleChoiceSelection s choice step.field).1 target
          true).onboardingConfig = some cfg := by
        show (handleChoiceSelection s choice step.field).1.onboardingConfig = some cfg
        rw [(handleChoiceSelection_fst s choice step.field).1, hcfg]
      have hid : (navigateToStep (handleChoiceSelection s choice step.field).1 target
          true).currentStepId = target := rfl
      rw [getCurrentStep_eq_find (navigateToStep (handleChoiceSelection s choice step.field).1
        target true) cfg hc, hid]
      refine List.find?_eq_none.mpr fun st hst => ?_
      simpa using habsent st hst
    exact ⟨heff, handleSliderComplete_effects_of_next s hstep htarget hne, hrun,
      fun choice2 field2 => handleChoiceSelection_effects_of_none _ choice2 field2 hrun⟩

/-- Witness for C3 (amended): the undefined-`nextStep` clause applied to the
stalling one-step configuration, the falsy clause applied to the
empty-string one-step configuration, and the dangling clause applied to the
dangling one-step configuration. -/
theorem advance_stalls_on_undefined_and_follows_dangling_next_step_witness :
    ((handleChoiceSelection stallState "planner" (some "conscientiousness")).2 = [] ∧
     (handleChoiceSelection stallState "planner" (some "conscientiousness")).1.currentStepId =
       stallState.currentStepId ∧
     (handleSliderComplete stallState).2 = [] ∧
     (handleSliderComplete stallState).1.currentStepId = stallState.currentStepId) ∧
    ((handleChoiceSelection emptyNextState "planner" (some "conscientiousness")).2 = [] ∧
     (handleChoiceSelection emptyNextState "planner"
       (some "conscientiousness")).1.currentStepId = emptyNextState.currentStepId ∧
     (handleSliderComplete emptyNextState).2 = [] ∧
     (handleSliderComplete emptyNextState).1.currentStepId =
       emptyNextState.currentStepId) ∧
    ((handleChoiceSelection danglingState "planner" (some "conscientiousness")).2 =
       [Effect.scheduleNavigate "missing_step"] ∧
     (handleSliderComplete danglingState).2 = [Effect.scheduleNavigate "missing_step"] ∧
     getCurrentStep
       (runScheduledNavigations
         (handleChoiceSelection danglingState "planner" (some "conscientiousness")).1
         (handleChoiceSelection danglingState "planner" (some "conscientiousness")).2) =
       none ∧
     ∀ choice2 field2,
       (handleChoiceSelection
         (runScheduledNavigations
           (handleChoiceSelection danglingState "planner" (some "conscientiousness")).1
           (handleChoiceSelection danglingState "planner" (some "conscientiousness")).2)
         choice2 field2).2 = []) :=
  ⟨(advance_stalls_on_undefined_and_follows_dangling_next_step stallState stallStepConfig
      _ "planner" rfl rfl).1 rfl,
   (advance_stalls_on_undefined_and_follows_dangling_next_step emptyNextState
      emptyNextStepConfig _ "planner" rfl rfl).2.1 rfl,
   (advance_stalls_on_undefined_and_follows_dangling_next_step danglingState danglingStepConfig
      _ "planner" rfl rfl).2.2 "missing_step" rfl (by decide) (by decide)⟩

/-- The screen mid-transition: the configuration is loaded, the sequencer
moved to the first question, and a navigation is in flight
(`interactionState = transitioning`, as `navigateToStep` sets before its
timer completes). -/
def midTransitionState : ScreenState :=
  navigateToStepStart
    (autoProgressCurrent
      (fetchOnboardingConfig (initialScreenState none)
        (FetchOutcome.ok onboardingQuestionsConfig)))
    true

/-- Counterexample to C4: while the sequencer is in the transitioning state,
a further advance call still writes the choice value into the answer record
(`conscientiousness` flips from `null` to `"planner"`) and still schedules a
transition, contradicting the claimed re-entrancy guard. -/
theorem advance_during_transition_writes_and_schedules :
    midTransitionState.interactionState = InteractionState.transitioning ∧
    midTransitionState.data.conscientiousness = none ∧
    (handleChoiceSelection midTransitionState "planner"
      (some "conscientiousness")).1.data.conscientiousness = some "planner" ∧
    (handleChoiceSelection midTransitionState "planner" (some "conscientiousness")).2 =
      [Effect.scheduleNavigate "transition_to_regulatory"] :=
  ⟨rfl, rfl, rfl, rfl⟩

/-- C4 (amended): `advance` performs no re-entrancy validation at all — even
while the sequencer is in the transitioning state, a further advance call on
a step with a target field writes the choice value into the answer record
and, when the step declares a truthy (non-empty) `nextStep`, schedules
another transition. -/
theorem advance_has_no_reentrancy_guard
    (s : ScreenState) (step : OnboardingStep) (choice f target : String)
    (htrans : s.interactionState = InteractionState.transitioning)
    (hstep : getCurrentStep s = some step)
    (hf : step.field = some f)
    (hn : step.nextStep = some target)
    (hne : target ≠ "") :
    (handleChoiceSelection s choice (some f)).1.data = s.data.setField f choice ∧
    (handleChoiceSelection s choice (some f)).2 = [Effect.scheduleNavigate target] :=
  ⟨rfl, handleChoiceSelection_effects_of_next s choice (some f) hstep hn hne⟩

/-- Witness for C4 (amended): the mid-transition screen above, on the
conscientiousness question. -/
theorem advance_has_no_reentrancy_guard_witness :
    (handleChoiceSelection midTransitionState "planner"
      (some "conscientiousness")).1.data =
      midTransitionState.data.setField "conscientiousness" "planner" ∧
    (handleChoiceSelection midTransitionState "planner" (some "conscientiousness")).2 =
      [Effect.scheduleNavigate "transition_to_regulatory"] :=
  advance_has_no_reentrancy_guard midTransitionState _ "planner" "conscientiousness"
    "transition_to_regulatory" rfl rfl rfl rfl (by decide)

/-- The screen of src/unnamed/part_001 after the welcome messages
auto-progressed to the first question: the history now holds the first
step. -/
def afterFirstAdvanceState : ScreenState :=
  autoProgressCurrent
    (fetchOnboardingConfig (initialScreenState none)
      (FetchOutcome.ok onboardingQuestionsConfig))

/-- Counterexample to C5: in the screen of src/unnamed/part_001, steps have
no `previousStep` member at all (in particular the current question declares
none), so the claim requires goBack to delegate to the host back action; but
with a non-empty visit history the handler performs no host back action and
instead transitions to the most recently visited step. -/
theorem goBack_uses_history_not_declared_previous :
    afterFirstAdvanceState.currentStepId = "conscientiousness_question" ∧
    afterFirstAdvanceState.stepHistory = ["welcome_messages"] ∧
    (handleBackPress afterFirstAdvanceState).2 = [] ∧
    ¬ (handleBackPress afterFirstAdvanceState).2 = [Effect.hostBack] ∧
    (handleBackPress afterFirstAdvanceState).1.currentStepId = "welcome_messages" := by
  refine ⟨rfl, rfl, rfl, ?_, rfl⟩
  intro h
  have h2 : ([] : List Effect) = [Effect.hostBack] := h
  exact List.noConfusion h2

/-- C5 (amended): in src/unnamed/part_001, goBack pops the most recently
visited step off the history stack and transitions there, delegating to the
host navigation stack's back action exactly when the history is empty; the
variant screen of src/unnamed/part_002 behaves as the claim states — it
transitions to the current step's declared `previousStep` when one is
declared (non-empty), and otherwise delegates to the host back action. -/
theorem goBack_history_in_part1_previousStep_in_part2 :
    (∀ (s : ScreenState) (prev : String), s.stepHistory.getLast? = some prev →
      handleBackPress s =
        (navigateToStep { s with stepHistory := s.stepHistory.dropLast } prev false, []) ∧
      (handleBackPress s).1.currentStepId = prev) ∧
    (∀ s : ScreenState, s.stepHistory = [] →
      handleBackPress s = (s, [Effect.hostBack])) ∧
    (∀ (s : P2.ScreenState) (step : P2.OnboardingStep) (prev : String),
      P2.getCurrentStep s = some step → step.previousStep = some prev → prev ≠ "" →
      P2.handleBackPress s = (P2.animateToNextStep s prev, [])) ∧
    (∀ (s : P2.ScreenState) (step : P2.OnboardingStep),
      P2.getCurrentStep s = some step → step.previousStep = none →
      P2.handleBackPress s = (s, [Effect.hostBack])) := by
  refine ⟨?_, ?_, ?_, ?_⟩
  · intro s prev h
    constructor
    · simp only [handleBackPress, h]
    · simp only [handleBackPress, h]
      rfl
  · intro s h
    simp only [handleBackPress, h, List.getLast?_nil]
  · intro s step prev hstep hprev hne
    simp only [P2.handleBackPress, hstep, hprev, if_neg hne]
  · intro s step hstep hprev
    simp only [P2.handleBackPress, hstep, hprev]

/-- The variant screen sitting on its conscientiousness question, whose
configured step declares `previousStep: "initialMessages"`. -/
def p2OnQuestionState : P2.ScreenState where
  onboardingSteps := some P2.sampleSteps
  currentStepId := "conscientiousnessQuestion"
  interactionState := InteractionState.none

/-- Witness for C5 (amended): part_001's handler applied with the singleton
history, and part_002's handler applied on the question step with its
declared `previousStep`. -/
theorem goBack_history_in_part1_previousStep_in_part2_witness :
    (handleBackPress afterFirstAdvanceState =
      (navigateToStep
        { afterFirstAdvanceState with
            stepHistory := afterFirstAdvanceState.stepHistory.dropLast }
        "welcome_messages" false, []) ∧
     (handleBackPress afterFirstAdvanceState).1.currentStepId = "welcome_messages") ∧
    P2.handleBackPress p2OnQuestionState =
      (P2.animateToNextStep p2OnQuestionState "initialMessages", []) :=
  ⟨goBack_history_in_part1_previousStep_in_part2.1 afterFirstAdvanceState
      "welcome_messages" rfl,
   goBack_history_in_part1_previousStep_in_part2.2.2.1 p2OnQuestionState _
      "initialMessages" rfl rfl (by decide)⟩

/-- C10: for every user message and every onboarding-data value (including
null), the canned-response generator returns an element of the fixed finite
set of static strings, and the candidate list it indexes is non-empty, so
the randomly chosen response is never undefined. -/
theorem canned_response_always_defined_and_static
    (msg : String) (data : Option Chat.OnboardingData) (r : ℚ)
    (h0 : 0 ≤ r) (h1 : r < 1) :
    (∃ s, Chat.generateAIResponse msg data r = some s ∧ s ∈ Chat.allCannedResponses) ∧
    ∀ d, data = some d → 0 < (Chat.candidateResponses d).length := by
  have hlen : ∀ d : Chat.OnboardingData, 0 < (Chat.candidateResponses d).length := by
    intro d
    have h3 : (Chat.coachingStyleResponses d).length = 3 := by
      unfold Chat.coachingStyleResponses; split <;> rfl
    simp [Chat.candidateResponses, h3]
  refine ⟨?_, fun d hd => hlen d⟩
  cases data with
  | none =>
    exact ⟨Chat.noDataResponse, rfl, by simp [Chat.allCannedResponses]⟩
  | some d =>
    have hsub : ∀ x ∈ Chat.candidateResponses d, x ∈ Chat.allCannedResponses := by
      intro x hx
      simp only [Chat.candidateResponses, List.mem_append] at hx
      rcases hx with ((((hx | hx) | hx) | hx) | hx)
      · unfold Chat.coachingStyleResponses at hx
        split at hx <;>
          (simp only [List.mem_cons, List.not_mem_nil, or_false] at hx;
           rcases hx with rfl | rfl | rfl <;> decide)
      · unfold Chat.regulatoryFocusResponses at hx
        split at hx
        · simp only [List.mem_cons, List.not_mem_nil, or_false] at hx
          rcases hx with rfl | rfl <;> decide
        · split at hx
          · simp only [List.mem_cons, List.not_mem_nil, or_false] at hx
            rcases hx with rfl | rfl <;> decide
          · simp at hx
      · unfold Chat.mindsetResponses at hx
        split at hx
        · simp only [List.mem_cons, List.not_mem_nil, or_false] at hx
          rcases hx with rfl | rfl <;> decide
        · simp at hx
      · unfold Chat.extraversionResponses at hx
        split at hx <;>
          (simp only [List.mem_cons, List.not_mem_nil, or_false] at hx;
           rcases hx with rfl | rfl <;> decide)
      · unfold Chat.agreeablenessResponses at hx
        split at hx <;>
          (simp only [List.mem_cons, List.not_mem_nil, or_false] at hx;
           rcases hx with rfl | rfl <;> decide)
    have hlenpos : (0 : ℚ) < (Chat.candidateResponses d).length := by
      exact_mod_cast hlen d
    have hfl0 : 0 ≤ Int.floor (r * (Chat.candidateResponses d).length) :=
      Int.floor_nonneg.mpr (by positivity)
    have hflt : Int.floor (r * (Chat.candidateResponses d).length) <
        ((Chat.candidateResponses d).length : ℤ) := by
      refine Int.floor_lt.mpr ?_
      push_cast
      nlinarith
    have hidx : (Int.floor (r * (Chat.candidateResponses d).length)).toNat <
        (Chat.candidateResponses d).length := by omega
    refine ⟨(Chat.candidateResponses d).get ⟨_, hidx⟩, ?_, ?_⟩
    · simpa [Chat.generateAIResponse] using List.get?_eq_get (l := Chat.candidateResponses d) hidx
    · exact hsub _ (List.get_mem _ _ _)

/-- A concrete parsed onboarding record for the C10 witness. -/
def sampleChatData : Chat.OnboardingData where
  coachingStyle := "planner"
  regulatoryFocus := some "promotion"
  locusOfControl := some "internal"
  mindset := some "growth"
  extraversion := 70
  agreeableness := 40
  currentFocus := "x"

/-- Witness for C10: a concrete planner/promotion/growth record with the
random draw at one half. -/
theorem canned_response_always_defined_and_static_witness :
    (∃ s, Chat.generateAIResponse "hello" (some sampleChatData) (1 / 2) = some s ∧
      s ∈ Chat.allCannedResponses) ∧
    ∀ d, (some sampleChatData : Option Chat.OnboardingData) = some d →
      0 < (Chat.candidateResponses d).length :=
  canned_response_always_defined_and_static "hello" (some sampleChatData) (1 / 2)
    (by norm_num) (by norm_num)

end LocusOfYou
